import Mathlib

/-!
Verification of the workflow orchestration engine of the SRAG reporting
pipeline (`app/workflows/main_workflow.py`, `app/agents/*.py`,
`app/tools/data_tools.py`).

The embedding models:
* the LangGraph `WorkflowState` channels declared in `app/agents/states.py`,
  together with the barrier bookkeeping keys (`data_complete`,
  `news_complete`, `ready_for_report`) that `_join_step` reads and writes;
* `StateDelta`, the partial update a node returns, and the engine merge:
  `errors` carries the `operator.add` reducer (concatenation), every other
  declared field is a last-value channel (a write replaces the current
  value, an absent key leaves it unchanged), and a write to a key without
  a declared channel — the three barrier flag keys `_join_step` returns,
  which the `WorkflowState` TypedDict never declares — is discarded by the
  engine;
* the node functions `download_step`, `processing_step`, `curation_step`,
  `_join_step`, `creation_step`, `_start_step` and the router
  `should_generate_report`, each parameterised by the outcomes of its
  external collaborators (network download with the tenacity retry policy,
  column validation, dataset cleaning, news search, per-article curation,
  report rendering);
* the compiled graph order: START fans out to the download and news nodes,
  download feeds processing, both branches feed the join node (which hence
  runs twice), and the conditional edge evaluates the router.
-/

/-- Curated news article (`NewsArticle` in `app/agents/states.py`):
four required string fields. -/
structure NewsArticle where
  title : String
  summary : String
  original_link : String
  date : String
deriving Repr, DecidableEq

/-- The workflow state, one field per channel.  Fields that are `Optional`
strings in the Python `TypedDict` are `Option String` (`none` models the
key being absent or `None`); fields read with a `state.get(key, default)`
default are stored directly with that default.  The three barrier
bookkeeping keys that `_join_step` reads (`state.get("data_complete",
False)` and friends) are carried as boolean fields defaulting to `False`
so that the node functions are total on dict-states; they are NOT
channels of the `StateGraph(WorkflowState)` schema — the TypedDict in
`states.py` declares none of them — so the engine never stores a write to
them (see `mergeDelta`) and they remain `False` in every engine-reachable
state. -/
structure WorkflowState where
  raw_dataset_path : Option String := none
  refined_dataset_path : Option String := none
  metadata_valid : Bool := false
  metrics : List (String × String) := []
  news_articles : List NewsArticle := []
  topic : Option String := none
  final_report_path : Option String := none
  errors : List String := []
  data_complete : Bool := false
  news_complete : Bool := false
  ready_for_report : Bool := false
deriving Repr, DecidableEq

/-- A partial state update returned by a node.  `some v` means the returned
dict contains the key with value `v`; `none` means the key is absent.  No
node in the repository ever writes an explicit `None` into a key, so a
write always carries a proper value.  `errors` is the reducer channel:
an absent key is the same as the empty contribution. -/
structure StateDelta where
  raw_dataset_path : Option String := none
  refined_dataset_path : Option String := none
  metadata_valid : Option Bool := none
  metrics : Option (List (String × String)) := none
  news_articles : Option (List NewsArticle) := none
  topic : Option String := none
  final_report_path : Option String := none
  errors : List String := []
  data_complete : Option Bool := none
  news_complete : Option Bool := none
  ready_for_report : Option Bool := none
deriving Repr, DecidableEq

/-- Last-value channel update: a write replaces the current value, an
absent key keeps it. -/
def lastValue (old upd : Option α) : Option α :=
  match upd with
  | some v => some v
  | none => old

/-- The engine merge of a node delta into the state: `errors` is
concatenated (the `operator.add` reducer on
`errors: Annotated[List[str], operator.add]` in `states.py`); every other
declared field is a last-value channel.  The three barrier flag keys are
not declared in the `WorkflowState` TypedDict, so the engine has no
channel for them and discards their writes: the state keeps its current
(always default) flag values. -/
def mergeDelta (s : WorkflowState) (d : StateDelta) : WorkflowState :=
  { raw_dataset_path := lastValue s.raw_dataset_path d.raw_dataset_path
    refined_dataset_path := lastValue s.refined_dataset_path d.refined_dataset_path
    metadata_valid := d.metadata_valid.getD s.metadata_valid
    metrics := d.metrics.getD s.metrics
    news_articles := d.news_articles.getD s.news_articles
    topic := lastValue s.topic d.topic
    final_report_path := lastValue s.final_report_path d.final_report_path
    errors := s.errors ++ d.errors
    data_complete := s.data_complete
    news_complete := s.news_complete
    ready_for_report := s.ready_for_report }

/-- Python truthiness of an optional string: `bool(state.get(k))` is
`True` exactly when the key holds a non-empty string. -/
def strTruthy (o : Option String) : Bool :=
  o.getD "" != ""

/-- Outcome of one call of the `download_dataset` collaborator
(`app/tools/data_tools.py`): either it raises a transient network error
(`requests.RequestException` / `ConnectionError`, the retryable types of
the tenacity decorator), or it returns a string (a saved path, or the
empty string which the interface uses to signal a non-retryable
failure). -/
inductive AttemptOutcome where
  | transient (msg : String)
  | value (s : String)
deriving Repr, DecidableEq

/-- The tenacity retry policy on `download_dataset`:
`stop_after_attempt(3)` with retry on transient errors.  `outs` lists the
outcome of each successive call and the fuel is the number of attempts
still allowed.  A returned value stops the loop; a transient raise on the
last allowed attempt is re-raised (as tenacity `RetryError`). -/
def tenacityInvoke : List AttemptOutcome → Nat → Except String String
  | _, 0 => Except.error "RetryError"
  | [], _ + 1 => Except.error "RetryError"
  | AttemptOutcome.value s :: _, _ + 1 => Except.ok s
  | AttemptOutcome.transient e :: rest, n + 1 =>
      if n = 0 then Except.error ("RetryError: " ++ e) else tenacityInvoke rest n

/-- The retried download collaborator: at most 3 attempts. -/
def download_dataset (outs : List AttemptOutcome) : Except String String :=
  tenacityInvoke outs 3

/-- The download node (`download_step` in `app/agents/data_specialist.py`),
parameterised by the result of `find_latest_dataset()` and the outcomes of
the download collaborator calls.  An existing local file short-circuits
the download; otherwise a raised exception or an empty returned path each
yield a single error message and no path. -/
def download_step (findLatest : Option String) (outs : List AttemptOutcome) : StateDelta :=
  match findLatest with
  | some existing_file => { raw_dataset_path := some existing_file }
  | none =>
    match download_dataset outs with
    | Except.ok raw_path =>
        if raw_path = "" then
          { errors := ["Dataset download failed - no path returned"] }
        else
          { raw_dataset_path := some raw_path }
    | Except.error e => { errors := ["Dataset download exception: " ++ e] }

/-- The processing node (`processing_step` in
`app/agents/data_specialist.py`), parameterised by the `os.path.exists`
oracle and the outcomes of the `validate_columns` and `clean_dataset`
collaborators (the latter receives the selected columns).  A missing or
non-existing `raw_dataset_path` short-circuits with one error; a failed or
empty column validation degrades to the empty selection without recording
an error; a raised or empty cleaning result yields one error and no
refined path. -/
def processing_step (s : WorkflowState) (fileExists : String → Bool)
    (validate : Except String (List String))
    (clean : List String → Except String String) : StateDelta :=
  let raw_path := s.raw_dataset_path.getD ""
  if raw_path = "" then
    { errors := ["No raw dataset path available for processing"] }
  else if !(fileExists raw_path) then
    { errors := ["Raw dataset file not found: " ++ raw_path] }
  else
    let selected_columns :=
      match validate with
      | Except.ok cols => cols
      | Except.error _ => []
    match clean selected_columns with
    | Except.ok refined_path =>
        if refined_path = "" then
          { errors := ["Data cleaning returned no file path"] }
        else
          { refined_dataset_path := some refined_path, metadata_valid := some true }
    | Except.error _e => { errors := ["Data cleaning failed: " ++ _e] }

/-- One raw search result as consumed by `curation_step`:
`item.get("link") or item.get("url")` selects the URL. -/
structure SearchItem where
  link : Option String := none
  url : Option String := none
deriving Repr, DecidableEq

/-- URL extraction from a raw search result: the `link` key if truthy,
else the `url` key, else the empty string (which makes the item be
skipped). -/
def itemUrl (it : SearchItem) : String :=
  if it.link.getD "" != "" then it.link.getD "" else it.url.getD ""

/-- The per-item processing loop of `curation_step`: items without a URL
are skipped, a raised `process_news_article` call skips the item, a `None`
result (irrelevant article) is dropped, an approved article is kept. -/
def curatedArticles (items : List SearchItem)
    (processArticle : String → Except String (Option NewsArticle)) : List NewsArticle :=
  items.filterMap (fun it =>
    if itemUrl it = "" then none
    else
      match processArticle (itemUrl it) with
      | Except.ok (some a) => some a
      | Except.ok none => none
      | Except.error _ => none)

/-- The news node (`curation_step` in `app/agents/news_curator.py`),
parameterised by `settings.default_topic` and the outcomes of the
`search_news` and `process_news_article` collaborators.  The topic is
`state.get("topic") or settings.default_topic`.  A raised search yields
one error and the empty article list; an empty search result returns the
empty article list with no error; otherwise each item is processed
individually. -/
def curation_step (s : WorkflowState) (default_topic : String)
    (search : Except String (List SearchItem))
    (processArticle : String → Except String (Option NewsArticle)) : StateDelta :=
  let topic := if s.topic.getD "" = "" then default_topic else s.topic.getD ""
  match search with
  | Except.error e =>
      { topic := some topic, news_articles := some [],
        errors := ["News search failed: " ++ e] }
  | Except.ok raw_results =>
      if raw_results.isEmpty then
        { topic := some topic, news_articles := some [] }
      else
        { topic := some topic,
          news_articles := some (curatedArticles raw_results processArticle) }

/-- The barrier node (`_join_step` in `app/workflows/main_workflow.py`):
recomputes branch readiness from the merged state, marks the completion
flags of whatever is ready, and sets `ready_for_report` when both branches
are (or were already marked) complete. -/
def join_step (s : WorkflowState) : StateDelta :=
  let has_data := strTruthy s.refined_dataset_path
  let has_news := !s.news_articles.isEmpty
  let already_data_complete := s.data_complete
  let already_news_complete := s.news_complete
  let data_will_be_complete := already_data_complete || has_data
  let news_will_be_complete := already_news_complete || has_news
  let both_complete := data_will_be_complete && news_will_be_complete
  { data_complete := if has_data then some true else none,
    news_complete := if has_news then some true else none,
    ready_for_report := if both_complete then some true else none }

/-- The initialisation step (`_start_step` in
`app/workflows/main_workflow.py`; defined in the module although the
compiled graph does not register it as a node): re-emits the current
errors (which the reducer appends again), fills the topic with its
default, and resets `metadata_valid`, `news_articles` and `metrics`. -/
def start_step (s : WorkflowState) (default_topic : String) : StateDelta :=
  { errors := s.errors,
    topic := some (s.topic.getD default_topic),
    metadata_valid := some false,
    news_articles := some [],
    metrics := some [] }

/-- The report node (`creation_step` in `app/agents/report_designer.py`),
parameterised by the outcome of the `render_report` collaborator applied
to the report data gathered from the state: a truthy returned path is
stored, an empty path or a raised exception yields one error. -/
def creation_step (render : Except String String) : StateDelta :=
  match render with
  | Except.ok report_path =>
      if report_path = "" then
        { errors := ["Report rendering failed - no path returned"] }
      else
        { final_report_path := some report_path }
  | Except.error e => { errors := ["Report creation failed: " ++ e] }

/-- The two answers of the conditional edge in `_build_workflow`: the
string `"report_node"` (advance to the report task) or the LangGraph `END`
constant (terminate the run). -/
inductive Route where
  | report
  | terminate
deriving Repr, DecidableEq

/-- The router (`should_generate_report` in
`app/workflows/main_workflow.py`): advance to the report node exactly when
`bool(state.get("refined_dataset_path"))` and
`len(state.get("news_articles", [])) > 0` both hold. -/
def should_generate_report (s : WorkflowState) : Route :=
  let has_data := strTruthy s.refined_dataset_path
  let has_news := !s.news_articles.isEmpty
  let both_ready := has_data && has_news
  if both_ready then Route.report else Route.terminate

/-- Spec predicate (§4.3): the data branch is ready exactly when
`refined_dataset_path` is non-null.  The empty string is the download
interface failure sentinel (§6 "empty string signals failure"), so it
counts as no path. -/
def dataBranchReady (s : WorkflowState) : Prop :=
  s.refined_dataset_path ≠ none ∧ s.refined_dataset_path ≠ some ""

/-- Spec predicate (§4.3): the news branch is ready exactly when
`news_articles` is non-empty. -/
def newsBranchReady (s : WorkflowState) : Prop :=
  s.news_articles ≠ []

/-- One task execution of the workflow, tagged with the outcomes of the
collaborators the task consults. -/
inductive Step where
  | start (default_topic : String)
  | download (findLatest : Option String) (outs : List AttemptOutcome)
  | process (fileExists : String → Bool) (validate : Except String (List String))
      (clean : List String → Except String String)
  | curate (default_topic : String) (search : Except String (List SearchItem))
      (processArticle : String → Except String (Option NewsArticle))
  | join
  | report (render : Except String String)

/-- The delta a task produces on a given state snapshot. -/
def stepDelta : Step → WorkflowState → StateDelta
  | Step.start dt, s => start_step s dt
  | Step.download fl outs, _ => download_step fl outs
  | Step.process fe v c, s => processing_step s fe v c
  | Step.curate dt se pa, s => curation_step s dt se pa
  | Step.join, s => join_step s
  | Step.report r, _ => creation_step r

/-- Execute one task and merge its delta. -/
def applyStep (st : Step) (s : WorkflowState) : WorkflowState :=
  mergeDelta s (stepDelta st s)

/-- Execute a sequence of tasks (any interleaving of the branches is a
list of steps). -/
def runSteps (s : WorkflowState) : List Step → WorkflowState
  | [] => s
  | st :: rest => runSteps (applyStep st s) rest

/-- The error messages emitted by each task along a run, in order. -/
def emittedErrors : WorkflowState → List Step → List String
  | _, [] => []
  | s, st :: rest => (stepDelta st s).errors ++ emittedErrors (applyStep st s) rest

/-- The collaborator outcomes of one whole run of the compiled graph. -/
structure Collabs where
  default_topic : String := "SRAG"
  findLatest : Option String := none
  downloadOutcomes : List AttemptOutcome := []
  fileExists : String → Bool := fun _ => false
  validate : Except String (List String) := Except.ok []
  clean : List String → Except String String := fun _ => Except.error "unused"
  search : Except String (List SearchItem) := Except.ok []
  processArticle : String → Except String (Option NewsArticle) := fun _ => Except.ok none

/-- One run of the compiled graph of `_build_workflow`, following the
LangGraph superstep order: START fans out to `download_node` and
`fetch_news_node` (both see the initial snapshot); the next superstep runs
`process_data_node` and the first `join_node` evaluation (both see the
snapshot after the first superstep); the edge from `process_data_node`
triggers `join_node` a second time.  The conditional edge then evaluates
`should_generate_report` on the merged state. -/
def runGraph (c : Collabs) (init : WorkflowState) : WorkflowState :=
  let d_dl := download_step c.findLatest c.downloadOutcomes
  let d_news := curation_step init c.default_topic c.search c.processArticle
  let s1 := mergeDelta (mergeDelta init d_dl) d_news
  let d_proc := processing_step s1 c.fileExists c.validate c.clean
  let d_join1 := join_step s1
  let s2 := mergeDelta (mergeDelta s1 d_proc) d_join1
  mergeDelta s2 (join_step s2)

/-- Collaborator outcomes of a run in which the data branch succeeds via an
existing local dataset and the news search returns zero items. -/
def emptySearchCollabs : Collabs :=
  { findLatest := some "data/INFLUD25-01-01-2025.csv",
    fileExists := fun _ => true,
    validate := Except.ok ["DT_NOTIFIC"],
    clean := fun _ => Except.ok "data/refined_dataset.csv",
    search := Except.ok [] }

/-- Collaborator outcomes of a run whose data branch succeeds; used with an
initial state that already carries a `refined_dataset_path`. -/
def overwriteCollabs : Collabs :=
  { findLatest := some "data/INFLUD25-01-01-2025.csv",
    fileExists := fun _ => true,
    validate := Except.ok ["DT_NOTIFIC"],
    clean := fun _ => Except.ok "data/refined_dataset.csv",
    search := Except.ok [] }

/-- Collaborator outcomes of a run in which the download collaborator
returns the empty string on its first call and everything downstream of it
is reached with no dataset. -/
def failedDownloadCollabs : Collabs :=
  { findLatest := none,
    downloadOutcomes := [AttemptOutcome.value ""] }

/-- Collaborator outcomes of a run whose news branch is ready at the first
barrier evaluation (the search finds one article and the curation
collaborator approves it) while the data branch fails (the download
collaborator returns the empty string). -/
def newsOnlyCollabs : Collabs :=
  { findLatest := none,
    downloadOutcomes := [AttemptOutcome.value ""],
    search := Except.ok [{ link := some "https://example.com/a" }],
    processArticle := fun _ =>
      Except.ok (some ⟨"SRAG em alta", "resumo", "https://example.com/a", "2025-01-01"⟩) }

/-! Helper lemmas about the embedding. -/

theorem strTruthy_eq_true_iff (o : Option String) :
    strTruthy o = true ↔ (o ≠ none ∧ o ≠ some "") := by
  cases o with
  | none => simp [strTruthy]
  | some v => by_cases hv : v = "" <;> simp [strTruthy, hv]

theorem isEmpty_false_iff (l : List NewsArticle) : l.isEmpty = false ↔ l ≠ [] := by
  cases l <;> simp

theorem lastValue_isSome {α : Type} {o u : Option α} (h : o.isSome = true) :
    (lastValue o u).isSome = true := by
  cases u <;> simp [lastValue, h]

theorem mergeDelta_errors (s : WorkflowState) (d : StateDelta) :
    (mergeDelta s d).errors = s.errors ++ d.errors := rfl

theorem download_step_shape (fl : Option String) (outs : List AttemptOutcome) :
    (∃ f, download_step fl outs = { raw_dataset_path := some f }) ∨
    (∃ msg, download_step fl outs = { errors := [msg] }) := by
  cases fl with
  | some f => exact Or.inl ⟨f, rfl⟩
  | none =>
    unfold download_step
    cases h : download_dataset outs with
    | ok p =>
      by_cases hp : p = ""
      · subst hp; simp
      · simp [hp]
    | error e => simp

theorem processing_step_shape (s : WorkflowState) (fe : String → Bool)
    (v : Except String (List String)) (c : List String → Except String String) :
    (∃ msg, processing_step s fe v c = { errors := [msg] }) ∨
    (∃ p, p ≠ "" ∧ processing_step s fe v c =
      { refined_dataset_path := some p, metadata_valid := some true }) := by
  by_cases h1 : s.raw_dataset_path.getD "" = ""
  · exact Or.inl ⟨"No raw dataset path available for processing", by simp [processing_step, h1]⟩
  · cases h2 : fe (s.raw_dataset_path.getD "") with
    | false =>
      exact Or.inl ⟨"Raw dataset file not found: " ++ s.raw_dataset_path.getD "",
        by simp [processing_step, h1, h2]⟩
    | true =>
      cases v with
      | ok cols =>
        cases hc : c cols with
        | ok p =>
          by_cases hp : p = ""
          · exact Or.inl ⟨"Data cleaning returned no file path",
              by simp [processing_step, h1, h2, hc, hp]⟩
          · exact Or.inr ⟨p, hp, by simp [processing_step, h1, h2, hc, hp]⟩
        | error e2 =>
          exact Or.inl ⟨"Data cleaning failed: " ++ e2, by simp [processing_step, h1, h2, hc]⟩
      | error e =>
        cases hc : c [] with
        | ok p =>
          by_cases hp : p = ""
          · exact Or.inl ⟨"Data cleaning returned no file path",
              by simp [processing_step, h1, h2, hc, hp]⟩
          · exact Or.inr ⟨p, hp, by simp [processing_step, h1, h2, hc, hp]⟩
        | error e2 =>
          exact Or.inl ⟨"Data cleaning failed: " ++ e2, by simp [processing_step, h1, h2, hc]⟩

theorem curation_step_shape (s : WorkflowState) (dt : String)
    (se : Except String (List SearchItem))
    (pa : String → Except String (Option NewsArticle)) :
    ∃ t arts errs, curation_step s dt se pa =
      { topic := some t, news_articles := some arts, errors := errs } ∧
      (errs = [] ∨ ∃ m, errs = [m]) := by
  unfold curation_step
  cases se with
  | error e => exact ⟨_, [], _, rfl, Or.inr ⟨_, rfl⟩⟩
  | ok items =>
    by_cases h : items.isEmpty
    · simp only [h, if_true]
      exact ⟨_, [], [], rfl, Or.inl rfl⟩
    · simp only [h, if_false]
      exact ⟨_, _, [], rfl, Or.inl rfl⟩

theorem join_step_shape (s : WorkflowState) :
    ∃ dc nc rr, join_step s =
      { data_complete := dc, news_complete := nc, ready_for_report := rr } ∧
      (dc = none ∨ dc = some true) ∧ (nc = none ∨ nc = some true) ∧
      (rr = none ∨ rr = some true) := by
  unfold join_step
  refine ⟨_, _, _, rfl, ?_, ?_, ?_⟩ <;> split <;> simp

theorem creation_step_shape (r : Except String String) :
    (∃ p, creation_step r = { final_report_path := some p }) ∨
    (∃ msg, creation_step r = { errors := [msg] }) := by
  unfold creation_step
  cases r with
  | ok p =>
    by_cases hp : p = ""
    · subst hp; simp
    · simp [hp]
  | error e => simp

theorem lastValue_none {α : Type} (o : Option α) : lastValue o none = o := rfl

theorem mergeDelta_raw (s : WorkflowState) (d : StateDelta) :
    (mergeDelta s d).raw_dataset_path = lastValue s.raw_dataset_path d.raw_dataset_path := rfl

theorem mergeDelta_refined (s : WorkflowState) (d : StateDelta) :
    (mergeDelta s d).refined_dataset_path =
      lastValue s.refined_dataset_path d.refined_dataset_path := rfl

theorem mergeDelta_news (s : WorkflowState) (d : StateDelta) :
    (mergeDelta s d).news_articles = d.news_articles.getD s.news_articles := rfl

theorem download_step_field_refined (fl : Option String) (outs : List AttemptOutcome) :
    (download_step fl outs).refined_dataset_path = none := by
  rcases download_step_shape fl outs with ⟨f, h⟩ | ⟨m, h⟩ <;> rw [h]

theorem download_step_field_news (fl : Option String) (outs : List AttemptOutcome) :
    (download_step fl outs).news_articles = none := by
  rcases download_step_shape fl outs with ⟨f, h⟩ | ⟨m, h⟩ <;> rw [h]

theorem curation_field_raw (s : WorkflowState) (dt : String)
    (se : Except String (List SearchItem))
    (pa : String → Except String (Option NewsArticle)) :
    (curation_step s dt se pa).raw_dataset_path = none := by
  obtain ⟨t, arts, errs, h, _⟩ := curation_step_shape s dt se pa
  rw [h]

theorem curation_field_refined (s : WorkflowState) (dt : String)
    (se : Except String (List SearchItem))
    (pa : String → Except String (Option NewsArticle)) :
    (curation_step s dt se pa).refined_dataset_path = none := by
  obtain ⟨t, arts, errs, h, _⟩ := curation_step_shape s dt se pa
  rw [h]

theorem processing_field_news (s : WorkflowState) (fe : String → Bool)
    (v : Except String (List String)) (c : List String → Except String String) :
    (processing_step s fe v c).news_articles = none := by
  rcases processing_step_shape s fe v c with ⟨m, h⟩ | ⟨p, hp, h⟩ <;> rw [h]

theorem join_field_raw (s : WorkflowState) : (join_step s).raw_dataset_path = none := rfl

theorem join_field_refined (s : WorkflowState) :
    (join_step s).refined_dataset_path = none := rfl

theorem join_field_news (s : WorkflowState) : (join_step s).news_articles = none := rfl

theorem processing_step_no_raw (s : WorkflowState) (fe : String → Bool)
    (v : Except String (List String)) (c : List String → Except String String)
    (h : s.raw_dataset_path = none) :
    processing_step s fe v c =
      { errors := ["No raw dataset path available for processing"] } := by
  simp [processing_step, h]

theorem processing_step_missing_file (s : WorkflowState) (fe : String → Bool)
    (v : Except String (List String)) (c : List String → Except String String) (p : String)
    (h : s.raw_dataset_path = some p) (hp : p ≠ "") (hfe : fe p = false) :
    processing_step s fe v c = { errors := ["Raw dataset file not found: " ++ p] } := by
  simp [processing_step, h, hp, hfe]

theorem router_eq_report_iff (s : WorkflowState) :
    should_generate_report s = Route.report ↔
      (strTruthy s.refined_dataset_path = true ∧ s.news_articles.isEmpty = false) := by
  unfold should_generate_report
  cases h1 : strTruthy s.refined_dataset_path <;>
    cases h2 : s.news_articles.isEmpty <;> simp

theorem router_cases (s : WorkflowState) :
    should_generate_report s = Route.report ∨
    should_generate_report s = Route.terminate := by
  unfold should_generate_report
  cases h : strTruthy s.refined_dataset_path && !s.news_articles.isEmpty <;> simp [h]

theorem join_step_ready (s : WorkflowState) :
    (join_step s).ready_for_report =
      (if ((s.data_complete || strTruthy s.refined_dataset_path) &&
           (s.news_complete || !s.news_articles.isEmpty)) = true
       then some true else none) := rfl

theorem join_step_flag_data (s : WorkflowState) :
    (join_step s).data_complete =
      (if strTruthy s.refined_dataset_path = true then some true else none) := rfl

theorem join_step_flag_news (s : WorkflowState) :
    (join_step s).news_complete =
      (if (!s.news_articles.isEmpty) = true then some true else none) := rfl

/-- C1: on every merged workflow state the router `should_generate_report`
answers `"report_node"` (advance to the report task) exactly when both
branch-readiness predicates of the spec hold — the data branch holds a
refined dataset path (non-null; the empty string is the interface failure
sentinel and counts as no path) and the news branch holds a non-empty
article list — and answers `END` (terminate) in every other state. -/
theorem router_report_iff_branches_ready (s : WorkflowState) :
    (should_generate_report s = Route.report ↔ (dataBranchReady s ∧ newsBranchReady s)) ∧
    (¬(dataBranchReady s ∧ newsBranchReady s) →
      should_generate_report s = Route.terminate) := by
  have key : should_generate_report s = Route.report ↔
      (dataBranchReady s ∧ newsBranchReady s) := by
    rw [router_eq_report_iff s]
    unfold dataBranchReady newsBranchReady
    rw [strTruthy_eq_true_iff]
    constructor
    · rintro ⟨a, b⟩; exact ⟨a, (isEmpty_false_iff _).mp b⟩
    · rintro ⟨a, b⟩; exact ⟨a, (isEmpty_false_iff _).mpr b⟩
  refine ⟨key, fun hnot => ?_⟩
  rcases router_cases s with hr | hr
  · exact absurd (key.mp hr) hnot
  · exact hr

/-- Witness for C1: a state with a refined dataset and one article routes
to the report task. -/
theorem router_report_iff_branches_ready_witness :
    should_generate_report
      { refined_dataset_path := some "data/refined_dataset.csv",
        news_articles := [⟨"t", "s", "l", "2025-01-01"⟩] } = Route.report :=
  (router_report_iff_branches_ready _).1.mpr
    ⟨⟨by decide, by decide⟩, by unfold newsBranchReady; decide⟩

/-- C9: the routing decision is a function of `refined_dataset_path` and
`news_articles` alone: two merged states agreeing on those two fields get
the same routing answer, however their `data_complete`, `news_complete`
and `ready_for_report` bookkeeping flags (and all other fields) differ. -/
theorem router_independent_of_flags (s1 s2 : WorkflowState)
    (hdata : s1.refined_dataset_path = s2.refined_dataset_path)
    (hnews : s1.news_articles = s2.news_articles) :
    should_generate_report s1 = should_generate_report s2 := by
  unfold should_generate_report
  rw [hdata, hnews]

/-- Witness for C9: two states agreeing on the dataset path and articles
but with all three flags flipped route identically. -/
theorem router_independent_of_flags_witness :
    should_generate_report
      { refined_dataset_path := some "data/refined_dataset.csv", news_articles := [],
        data_complete := true, news_complete := true, ready_for_report := true } =
    should_generate_report
      { refined_dataset_path := some "data/refined_dataset.csv", news_articles := [] } :=
  router_independent_of_flags _ _ rfl rfl

/-- C5: the barrier `_join_step`, on a state where both readiness
predicates hold (refined dataset present or the data flag already set, and
articles present or the news flag already set), returns a delta setting
`ready_for_report = true`; on any other state its delta leaves
`ready_for_report` absent.  In every case the delta contains at most the
two completion flags (only ever set to `true`) besides `ready_for_report`:
every other field is absent and no error is emitted. -/
theorem join_step_barrier_contract (s : WorkflowState) :
    (((dataBranchReady s ∨ s.data_complete = true) ∧
      (newsBranchReady s ∨ s.news_complete = true)) →
        (join_step s).ready_for_report = some true) ∧
    (¬((dataBranchReady s ∨ s.data_complete = true) ∧
       (newsBranchReady s ∨ s.news_complete = true)) →
        (join_step s).ready_for_report = none) ∧
    (join_step s).raw_dataset_path = none ∧
    (join_step s).refined_dataset_path = none ∧
    (join_step s).metadata_valid = none ∧
    (join_step s).metrics = none ∧
    (join_step s).news_articles = none ∧
    (join_step s).topic = none ∧
    (join_step s).final_report_path = none ∧
    (join_step s).errors = [] ∧
    ((join_step s).data_complete = none ∨ (join_step s).data_complete = some true) ∧
    ((join_step s).news_complete = none ∨ (join_step s).news_complete = some true) := by
  have hdata2 : strTruthy s.refined_dataset_path = true ↔ dataBranchReady s := by
    unfold dataBranchReady; exact strTruthy_eq_true_iff _
  have hnews2 : (!s.news_articles.isEmpty) = true ↔ newsBranchReady s := by
    unfold newsBranchReady; cases s.news_articles <;> simp
  have hcond : (((s.data_complete || strTruthy s.refined_dataset_path) &&
      (s.news_complete || !s.news_articles.isEmpty)) = true) ↔
      ((dataBranchReady s ∨ s.data_complete = true) ∧
       (newsBranchReady s ∨ s.news_complete = true)) := by
    simp only [Bool.and_eq_true, Bool.or_eq_true]
    rw [hdata2, hnews2]
    tauto
  refine ⟨?_, ?_, rfl, rfl, rfl, rfl, rfl, rfl, rfl, rfl, ?_, ?_⟩
  · intro hb
    rw [join_step_ready, if_pos (hcond.mpr hb)]
  · intro hb
    have hfalse : ¬(((s.data_complete || strTruthy s.refined_dataset_path) &&
        (s.news_complete || !s.news_articles.isEmpty)) = true) :=
      fun hc => hb (hcond.mp hc)
    rw [join_step_ready, if_neg hfalse]
  · rw [join_step_flag_data]; split <;> simp
  · rw [join_step_flag_news]; split <;> simp

/-- Witness for C5: a state with both branches ready makes the barrier set
`ready_for_report`. -/
theorem join_step_barrier_contract_witness :
    (join_step { refined_dataset_path := some "data/refined_dataset.csv",
                 news_articles := [⟨"t", "s", "l", "2025-01-01"⟩] }).ready_for_report =
      some true :=
  (join_step_barrier_contract _).1
    ⟨Or.inl ⟨by decide, by decide⟩, Or.inl (by unfold newsBranchReady; decide)⟩

theorem mergeDelta_flags_dropped (s : WorkflowState) (d : StateDelta) :
    (mergeDelta s d).data_complete = s.data_complete ∧
    (mergeDelta s d).news_complete = s.news_complete ∧
    (mergeDelta s d).ready_for_report = s.ready_for_report :=
  ⟨rfl, rfl, rfl⟩

/-- C6 (code bug): the barrier flag writes never persist.  `data_complete`
and `news_complete` are not declared in the `WorkflowState` TypedDict, so
`StateGraph(WorkflowState)` has no channel for them and the engine drops
the writes of `_join_step`.  In a run whose news branch is ready at the
first barrier evaluation (one curated article) while the data branch
failed, that evaluation returns a delta marking `news_complete = true`,
yet the final merged state — the one the second barrier evaluation reads
with `state.get("news_complete", False)` — still has the flag `false`:
the signaled-ready fact that the spec and the docstring of `_join_step`
promise to retain is never stored. -/
theorem completion_flag_write_dropped :
    (join_step (mergeDelta (mergeDelta {} (download_step newsOnlyCollabs.findLatest
        newsOnlyCollabs.downloadOutcomes))
      (curation_step {} newsOnlyCollabs.default_topic newsOnlyCollabs.search
        newsOnlyCollabs.processArticle))).news_complete = some true ∧
    (runGraph newsOnlyCollabs {}).news_complete = false ∧
    (runGraph newsOnlyCollabs {}).data_complete = false :=
  ⟨by decide, by decide, by decide⟩

theorem runSteps_errors (init : WorkflowState) (steps : List Step) :
    (runSteps init steps).errors = init.errors ++ emittedErrors init steps := by
  induction steps generalizing init with
  | nil => simp [runSteps, emittedErrors]
  | cons st rest ih =>
    calc (runSteps (applyStep st init) rest).errors
        = (applyStep st init).errors ++ emittedErrors (applyStep st init) rest := ih _
      _ = init.errors ++
            ((stepDelta st init).errors ++ emittedErrors (applyStep st init) rest) := by
          rw [← List.append_assoc]; rfl
      _ = init.errors ++ emittedErrors init (st :: rest) := rfl

/-- C4: the errors field is append-only: every merge concatenates the
delta errors onto the existing sequence, and along any run — whatever
interleaving of the branch tasks executes — the final errors sequence is
exactly the initial one followed by every error message each task emitted,
in execution order, with nothing overwritten or removed. -/
theorem errors_append_only_run :
    (∀ (s : WorkflowState) (d : StateDelta),
      (mergeDelta s d).errors = s.errors ++ d.errors) ∧
    (∀ (init : WorkflowState) (steps : List Step),
      (runSteps init steps).errors = init.errors ++ emittedErrors init steps) :=
  ⟨fun _ _ => rfl, runSteps_errors⟩

/-- C8 counterexample: the engine merge does not overwrite only-if-null.
`run_workflow` accepts an arbitrary initial mapping; starting a run whose
initial state already holds `refined_dataset_path = "data/old.csv"` (a
non-null value), the delta of the processing task replaces it with
`"data/refined_dataset.csv"`: the merge overwrote a field that was not
null. -/
theorem merge_overwrite_nonnull_counterexample :
    ({ refined_dataset_path := some "data/old.csv" } : WorkflowState).refined_dataset_path =
      some "data/old.csv" ∧
    (runGraph overwriteCollabs
      { refined_dataset_path := some "data/old.csv" }).refined_dataset_path =
      some "data/refined_dataset.csv" :=
  ⟨rfl, by decide⟩

/-- C8 (amended): the engine merge is last-value-wins for every field
other than `errors` — a field present in a delta replaces the current
value whether or not it is null — but no task of this workflow ever writes
a null into a field, so once `raw_dataset_path`, `refined_dataset_path`,
`topic` or `final_report_path` is non-null it remains non-null for the
rest of the run: a merge can replace such a value, never null it out. -/
theorem optional_fields_never_nulled :
    (∀ (s : WorkflowState) (d : StateDelta),
      (s.raw_dataset_path.isSome = true →
        (mergeDelta s d).raw_dataset_path.isSome = true) ∧
      (s.refined_dataset_path.isSome = true →
        (mergeDelta s d).refined_dataset_path.isSome = true) ∧
      (s.topic.isSome = true → (mergeDelta s d).topic.isSome = true) ∧
      (s.final_report_path.isSome = true →
        (mergeDelta s d).final_report_path.isSome = true)) ∧
    (∀ (s : WorkflowState) (steps : List Step),
      (s.raw_dataset_path.isSome = true →
        (runSteps s steps).raw_dataset_path.isSome = true) ∧
      (s.refined_dataset_path.isSome = true →
        (runSteps s steps).refined_dataset_path.isSome = true) ∧
      (s.topic.isSome = true → (runSteps s steps).topic.isSome = true) ∧
      (s.final_report_path.isSome = true →
        (runSteps s steps).final_report_path.isSome = true)) := by
  have hm : ∀ (s : WorkflowState) (d : StateDelta),
      (s.raw_dataset_path.isSome = true →
        (mergeDelta s d).raw_dataset_path.isSome = true) ∧
      (s.refined_dataset_path.isSome = true →
        (mergeDelta s d).refined_dataset_path.isSome = true) ∧
      (s.topic.isSome = true → (mergeDelta s d).topic.isSome = true) ∧
      (s.final_report_path.isSome = true →
        (mergeDelta s d).final_report_path.isSome = true) := by
    intro s d
    exact ⟨fun h => lastValue_isSome h, fun h => lastValue_isSome h,
      fun h => lastValue_isSome h, fun h => lastValue_isSome h⟩
  refine ⟨hm, ?_⟩
  intro s steps
  induction steps generalizing s with
  | nil => exact ⟨id, id, id, id⟩
  | cons st rest ih =>
    have h1 := hm s (stepDelta st s)
    have h2 := ih (applyStep st s)
    exact ⟨fun h => h2.1 (h1.1 h),
      fun h => h2.2.1 (h1.2.1 h),
      fun h => h2.2.2.1 (h1.2.2.1 h),
      fun h => h2.2.2.2 (h1.2.2.2 h)⟩

/-- Witness for C8 (amended): a topic set before a barrier evaluation is
still set after it. -/
theorem optional_fields_never_nulled_witness :
    (runSteps { topic := some "SRAG" } [Step.join]).topic.isSome = true :=
  (optional_fields_never_nulled.2 _ [Step.join]).2.2.1 rfl

/-- C7: the download task never lets a collaborator failure escape.  If
the collaborator raises a transient network error on fewer than 3 attempts
and then returns a path, the task delta carries that path and no error; if
it raises on all 3 allowed attempts, the task delta carries exactly one
error message and no path (the exhausted retry is caught at the task
boundary). -/
theorem download_retry_contract :
    (∀ (k : Nat) (e p : String) (rest : List AttemptOutcome), k ≤ 2 → p ≠ "" →
      (download_step none (List.replicate k (AttemptOutcome.transient e) ++
        AttemptOutcome.value p :: rest)).raw_dataset_path = some p ∧
      (download_step none (List.replicate k (AttemptOutcome.transient e) ++
        AttemptOutcome.value p :: rest)).errors = []) ∧
    (∀ (e1 e2 e3 : String) (rest : List AttemptOutcome),
      (download_step none (AttemptOutcome.transient e1 :: AttemptOutcome.transient e2 ::
        AttemptOutcome.transient e3 :: rest)).errors.length = 1 ∧
      (download_step none (AttemptOutcome.transient e1 :: AttemptOutcome.transient e2 ::
        AttemptOutcome.transient e3 :: rest)).raw_dataset_path = none) := by
  constructor
  · intro k e p rest hk hp
    interval_cases k <;>
      simp [download_step, download_dataset, tenacityInvoke, List.replicate, hp]
  · intro e1 e2 e3 rest
    simp [download_step, download_dataset, tenacityInvoke]

/-- Witness for C7: two transient raises followed by a successful third
attempt deliver the path with no error. -/
theorem download_retry_contract_witness :
    (download_step none (List.replicate 2 (AttemptOutcome.transient "timeout") ++
      AttemptOutcome.value "data/INFLUD25-01-01-2025.csv" :: [])).raw_dataset_path =
      some "data/INFLUD25-01-01-2025.csv" :=
  (download_retry_contract.1 2 "timeout" "data/INFLUD25-01-01-2025.csv" []
    (by decide) (by decide)).1

theorem runGraph_news (c : Collabs) (init : WorkflowState) :
    (runGraph c init).news_articles =
      ((curation_step init c.default_topic c.search c.processArticle).news_articles).getD
        init.news_articles := by
  unfold runGraph
  simp only [mergeDelta_news, processing_field_news, download_step_field_news,
    join_field_news, Option.getD_none]

theorem runGraph_no_data_terminates (c : Collabs) (init : WorkflowState)
    (hi1 : init.refined_dataset_path = none) (hi2 : init.raw_dataset_path = none)
    (hdl : (download_step c.findLatest c.downloadOutcomes).raw_dataset_path = none) :
    should_generate_report (runGraph c init) = Route.terminate := by
  have hs1 : (mergeDelta (mergeDelta init (download_step c.findLatest c.downloadOutcomes))
      (curation_step init c.default_topic c.search c.processArticle)).raw_dataset_path =
      none := by
    rw [mergeDelta_raw, mergeDelta_raw, hdl, curation_field_raw, hi2]
    rfl
  have hproc := processing_step_no_raw _ c.fileExists c.validate c.clean hs1
  have hfin : (runGraph c init).refined_dataset_path = none := by
    unfold runGraph
    simp only [mergeDelta_refined, join_field_refined, lastValue_none,
      download_step_field_refined, curation_field_refined]
    rw [hproc, hi1]
    rfl
  simp [should_generate_report, hfin, strTruthy]

theorem curation_field_topic (s : WorkflowState) (dt : String)
    (se : Except String (List SearchItem))
    (pa : String → Except String (Option NewsArticle)) :
    (curation_step s dt se pa).topic =
      some (if s.topic.getD "" = "" then dt else s.topic.getD "") := by
  cases se with
  | error e => rfl
  | ok items => by_cases h : items.isEmpty = true <;> simp [curation_step, h]

/-- C2 counterexample: a run whose data branch succeeds (an existing local
dataset, successful cleaning) while the news search returns zero items.
The router does return terminate, but the final errors sequence is empty:
it contains no "insufficient news" message (the curation step only logs a
warning), so the claimed error entry does not exist. -/
theorem empty_search_no_error_counterexample :
    should_generate_report (runGraph emptySearchCollabs {}) = Route.terminate ∧
    (runGraph emptySearchCollabs {}).errors = [] ∧
    (runGraph emptySearchCollabs {}).refined_dataset_path =
      some "data/refined_dataset.csv" :=
  ⟨by decide, by decide, by decide⟩

/-- C2 (amended): if the news search returns zero items the curation task
returns the empty article list with an empty errors delta — no
"insufficient news" (nor any other) message is recorded — and the router
returns terminate even when the data branch succeeded. -/
theorem empty_search_terminates_no_error (c : Collabs) (init s : WorkflowState)
    (dt : String) (pa : String → Except String (Option NewsArticle))
    (h : c.search = Except.ok []) :
    (curation_step s dt c.search pa).errors = [] ∧
    (curation_step s dt c.search pa).news_articles = some [] ∧
    should_generate_report (runGraph c init) = Route.terminate := by
  have hcur : ∀ (s2 : WorkflowState) (dt2 : String)
      (pa2 : String → Except String (Option NewsArticle)),
      (curation_step s2 dt2 c.search pa2).errors = [] ∧
      (curation_step s2 dt2 c.search pa2).news_articles = some [] := by
    intro s2 dt2 pa2
    rw [h]
    exact ⟨rfl, rfl⟩
  have hnews : (runGraph c init).news_articles = [] := by
    rw [runGraph_news, (hcur init c.default_topic c.processArticle).2]
    rfl
  refine ⟨(hcur s dt pa).1, (hcur s dt pa).2, ?_⟩
  simp [should_generate_report, hnews]

/-- Witness for C2 (amended), at the concrete empty-search run. -/
theorem empty_search_terminates_no_error_witness :
    (curation_step {} "SRAG" emptySearchCollabs.search
      (fun _ => Except.ok none)).errors = [] ∧
    should_generate_report (runGraph emptySearchCollabs {}) = Route.terminate :=
  ⟨(empty_search_terminates_no_error emptySearchCollabs {} {} "SRAG"
      (fun _ => Except.ok none) rfl).1,
   (empty_search_terminates_no_error emptySearchCollabs {} {} "SRAG"
      (fun _ => Except.ok none) rfl).2.2⟩

/-- C3: when the download collaborator returns the empty string (and no
local dataset exists), the download task records exactly one error and no
path; the processing task then short-circuits — on a state with no raw
dataset path its delta carries exactly one error and no
`refined_dataset_path`, and likewise when the referenced file does not
exist — while the curation task still returns an article-list delta, and
the whole run routes to terminate. -/
theorem download_empty_short_circuit (c : Collabs)
    (hfl : c.findLatest = none)
    (hout : ∃ rest, c.downloadOutcomes = AttemptOutcome.value "" :: rest) :
    (download_step c.findLatest c.downloadOutcomes).errors.length = 1 ∧
    (download_step c.findLatest c.downloadOutcomes).raw_dataset_path = none ∧
    (∀ s : WorkflowState, s.raw_dataset_path = none →
      (processing_step s c.fileExists c.validate c.clean).errors.length = 1 ∧
      (processing_step s c.fileExists c.validate c.clean).refined_dataset_path = none) ∧
    (∀ (s : WorkflowState) (p : String), s.raw_dataset_path = some p →
      c.fileExists p = false →
      (processing_step s c.fileExists c.validate c.clean).errors.length = 1 ∧
      (processing_step s c.fileExists c.validate c.clean).refined_dataset_path = none) ∧
    (∀ (s : WorkflowState) (dt : String) (se : Except String (List SearchItem))
      (pa : String → Except String (Option NewsArticle)),
      ((curation_step s dt se pa).news_articles).isSome = true) ∧
    should_generate_report (runGraph c {}) = Route.terminate := by
  obtain ⟨rest, hrest⟩ := hout
  have hdl : download_step c.findLatest c.downloadOutcomes =
      { errors := ["Dataset download failed - no path returned"] } := by
    rw [hfl, hrest]; rfl
  refine ⟨by rw [hdl]; rfl, by rw [hdl], ?_, ?_, ?_, ?_⟩
  · intro s hs
    rw [processing_step_no_raw s c.fileExists c.validate c.clean hs]
    exact ⟨rfl, rfl⟩
  · intro s p hs hfe
    by_cases hp : p = ""
    · subst hp
      have hempty : processing_step s c.fileExists c.validate c.clean =
          { errors := ["No raw dataset path available for processing"] } := by
        simp [processing_step, hs]
      rw [hempty]; exact ⟨rfl, rfl⟩
    · rw [processing_step_missing_file s c.fileExists c.validate c.clean p hs hp hfe]
      exact ⟨rfl, rfl⟩
  · intro s dt se pa
    obtain ⟨t, arts, errs, hc, _⟩ := curation_step_shape s dt se pa
    rw [hc]; rfl
  · exact runGraph_no_data_terminates c {} rfl rfl (by rw [hdl])

/-- Witness for C3, at a concrete run whose download collaborator returns
the empty string. -/
theorem download_empty_short_circuit_witness :
    (download_step failedDownloadCollabs.findLatest
      failedDownloadCollabs.downloadOutcomes).errors.length = 1 ∧
    should_generate_report (runGraph failedDownloadCollabs {}) = Route.terminate :=
  ⟨(download_empty_short_circuit failedDownloadCollabs rfl ⟨[], rfl⟩).1,
   (download_empty_short_circuit failedDownloadCollabs rfl ⟨[], rfl⟩).2.2.2.2.2⟩

/-- C10: whatever the search and per-article collaborators do, the
curation task returns a delta whose `news_articles` is a defined list and
whose topic is a defined non-empty string (given a non-empty default
topic, as configured): a search with no results yields the empty list and
no error, a raised search yields the empty list and exactly one error, and
an approved article is kept even when the collaborator fails on every
other item — a per-article failure skips only that item. -/
theorem curation_step_total_contract (s : WorkflowState) (dt : String)
    (se : Except String (List SearchItem))
    (pa : String → Except String (Option NewsArticle)) (hdt : dt ≠ "") :
    ((curation_step s dt se pa).news_articles).isSome = true ∧
    (∃ t, (curation_step s dt se pa).topic = some t ∧ t ≠ "") ∧
    (se = Except.ok [] → (curation_step s dt se pa).errors = [] ∧
      (curation_step s dt se pa).news_articles = some []) ∧
    (∀ e, se = Except.error e → (curation_step s dt se pa).errors.length = 1 ∧
      (curation_step s dt se pa).news_articles = some []) ∧
    (∀ (items : List SearchItem) (it : SearchItem) (a : NewsArticle),
      se = Except.ok items → it ∈ items → itemUrl it ≠ "" →
      pa (itemUrl it) = Except.ok (some a) →
      a ∈ ((curation_step s dt se pa).news_articles).getD []) := by
  refine ⟨?_, ?_, ?_, ?_, ?_⟩
  · obtain ⟨t, arts, errs, h, _⟩ := curation_step_shape s dt se pa
    rw [h]; rfl
  · refine ⟨(if s.topic.getD "" = "" then dt else s.topic.getD ""),
      curation_field_topic s dt se pa, ?_⟩
    by_cases h : s.topic.getD "" = ""
    · rw [if_pos h]; exact hdt
    · rw [if_neg h]; exact h
  · intro h; subst h; exact ⟨rfl, rfl⟩
  · intro e h; subst h; exact ⟨rfl, rfl⟩
  · intro items it a hse hmem hurl hpa
    subst hse
    have hne : items.isEmpty = false := by
      cases items with
      | nil => cases hmem
      | cons x xs => rfl
    have hstep : (curation_step s dt (Except.ok items) pa).news_articles =
        some (curatedArticles items pa) := by
      simp [curation_step, hne]
    rw [hstep]
    simp only [Option.getD_some]
    unfold curatedArticles
    refine List.mem_filterMap.mpr ⟨it, hmem, ?_⟩
    simp [hurl, hpa]

/-- Witness for C10: an empty search result yields the empty article list
and no error, with the default topic. -/
theorem curation_step_total_contract_witness :
    (curation_step {} "SRAG" (Except.ok []) (fun _ => Except.ok none)).errors = [] :=
  ((curation_step_total_contract {} "SRAG" (Except.ok [])
    (fun _ => Except.ok none) (by decide)).2.2.1 rfl).1
